import Mathlib

/-!
Verification of the simple-data-catalog-search core (indexer + search engine)
against its design specification.

The Python modules `src/indexer.py` and `src/search_engine.py` are shallowly
embedded below.  Table metadata dictionaries become structures whose fields
carry the `.get` defaults of the source (an absent key is the empty
string / empty list).  Numpy float arrays become lists of rationals; the one
place where floating-point non-finiteness matters (normalisation by a zero
L2 norm) is modelled with an explicit `Option` marker over the reals.
Stateful methods of `TableIndexer` become explicit state-passing functions;
`print` calls become a list of emitted log messages; the pickle cache file
becomes a value of an explicit file-content type addressed by a path-indexed
partial map.
-/

namespace DataCatalog

/-- A column metadata dictionary (`indexer.py` / `search_engine.py` access it
with `.get` and default `""` for the keys column_name, data_type and
description; an absent key is modelled as `""`). -/
structure ColumnRecord where
  column_name : String
  data_type : String
  description : String
deriving DecidableEq, Inhabited

/-- A table metadata dictionary, with the `.get` defaults of the source:
default `""` for the keys table_id, table_name, table_schema and
description, and default `[]` for the key columns. -/
structure TableRecord where
  table_id : String
  table_name : String
  table_schema : String
  description : String
  columns : List ColumnRecord
deriving DecidableEq, Inhabited

/-- `TableIndexer._create_searchable_text` (indexer.py lines 56-100):
the table name twice, the non-sentinel non-empty description, the non-empty
column names after a `"Columns: "` marker, the non-empty column
descriptions, all joined by single spaces. -/
def createSearchableText (table : TableRecord) : String :=
  let parts1 := [table.table_name ++ " " ++ table.table_name]
  let parts2 :=
    if table.description ≠ "" ∧ table.description ≠ "No description available"
    then parts1 ++ [table.description] else parts1
  let column_names := (table.columns.map (·.column_name)).filter (· ≠ "")
  let column_descs := (table.columns.map (·.description)).filter (· ≠ "")
  let parts3 :=
    if column_names ≠ []
    then parts2 ++ ["Columns: " ++ String.intercalate " " column_names] else parts2
  let parts4 :=
    if column_descs ≠ []
    then parts3 ++ [String.intercalate " " column_descs] else parts3
  String.intercalate " " parts4

/-- The SearchableText construction exactly as the specification words it
(spec §3): "table name repeated twice, then non-sentinel description, then
space-joined column names prefixed by a literal `Columns: ` marker, then
space-joined non-empty column descriptions — each present part joined by
single spaces, absent parts omitted entirely".  Written from the spec, to be
compared with `createSearchableText`, which is written from the source. -/
def specSearchableText (table : TableRecord) : String :=
  String.intercalate " "
    ([table.table_name ++ " " ++ table.table_name]
      ++ (if table.description ≠ "" ∧ table.description ≠ "No description available"
          then [table.description] else [])
      ++ (let ns := (table.columns.map (·.column_name)).filter (· ≠ "")
          if ns ≠ [] then ["Columns: " ++ String.intercalate " " ns] else [])
      ++ (let ds := (table.columns.map (·.description)).filter (· ≠ "")
          if ds ≠ [] then [String.intercalate " " ds] else []))

/-- A numpy embedding vector, modelled as a list of rationals (exact stand-in
for the finite floats produced by the embedding model). -/
abbrev Vec := List ℚ

/-- The mutable fields of a `TableIndexer` (indexer.py lines 22-26):
`model_name`, and `embeddings` / `metadata`, both initialised to `None`
(modelled as `none`). -/
structure IndexerState where
  model_name : String
  embeddings : Option (List Vec)
  metadata : Option (List TableRecord)
deriving DecidableEq, Inhabited

/-- `TableIndexer.build_index` (indexer.py lines 28-54).  The sentence
transformer is an external collaborator, so `encode` (the batch
`self.model.encode`) is a parameter.  The second component of the result
records the argument of every `encode` call made during the build: the
source makes exactly one call, with the full list of searchable texts,
regardless of whether `tables_metadata` is empty. -/
def build_index (encode : List String → List Vec) (st : IndexerState)
    (tables_metadata : List TableRecord) : IndexerState × List (List String) :=
  let searchable_texts := tables_metadata.map createSearchableText
  ({ st with
      embeddings := some (encode searchable_texts)
      metadata := some tables_metadata },
   [searchable_texts])

/-- One `print` call made by the cache code, one constructor per call site,
carrying the interpolated values:
* `cacheNotFound path` — "Cache file not found at {path}" (line 136)
* `modelMismatchWarning cached current` — "Warning: Cached model ({cached})
  differs from current model ({current})" (line 145)
* `indexLoaded path` — "Index loaded from {path}" (line 151)
* `loadError err` — "Error loading index: {err}" (line 155)
* `indexSaved path` — "Index saved to {path}" (line 120) -/
inductive LogMsg where
  | cacheNotFound (path : String)
  | modelMismatchWarning (cached current : String)
  | indexLoaded (path : String)
  | loadError (err : String)
  | indexSaved (path : String)
deriving DecidableEq

/-- The possible contents of a cache file: either bytes that make
`pickle.load` raise (`corrupt`, carrying the exception text), or a pickled
dictionary as written by `save_index` — note `save_index` dumps
`self.embeddings` and `self.metadata` verbatim, so both may be `None`. -/
inductive FileContent where
  | corrupt (err : String)
  | blob (embeddings : Option (List Vec)) (metadata : Option (List TableRecord))
      (model_name : String)
deriving DecidableEq

/-- The durable store: a partial map from paths to file contents. -/
abbrev FileSystem := String → Option FileContent

/-- `TableIndexer.save_index` (indexer.py lines 102-120) at an explicit
`cache_path`: pickles the dictionary of embeddings, metadata and model name to
the path.  (With `cache_path=None` the source uses the constant default path
`Config.CACHE_DIR/index.pkl`; that branch is the same write at that constant
path, covered here by quantifying over the path.) -/
def save_index (fs : FileSystem) (st : IndexerState) (cache_path : String) :
    FileSystem :=
  fun p => if p = cache_path
    then some (.blob st.embeddings st.metadata st.model_name)
    else fs p

/-- `TableIndexer.load_index` (indexer.py lines 122-156): returns the updated
indexer state, the boolean value returned to the caller, and the printed log
messages.  A missing path returns `False` before the `try` block; a
deserialization fault is caught and returns `False`; a stored model name
different from the current one returns `False` without touching
`self.embeddings` / `self.metadata`; otherwise both fields are overwritten
from the blob and `True` is returned. -/
def load_index (fs : FileSystem) (st : IndexerState) (cache_path : String) :
    IndexerState × Bool × List LogMsg :=
  match fs cache_path with
  | none => (st, false, [.cacheNotFound cache_path])
  | some (.corrupt err) => (st, false, [.loadError err])
  | some (.blob emb md mn) =>
    if mn ≠ st.model_name then
      (st, false, [.modelMismatchWarning mn st.model_name])
    else
      ({ st with embeddings := emb, metadata := md }, true, [.indexLoaded cache_path])

/-- One entry of the formatted column list produced by
`DataDictionarySearchEngine._format_columns` (the dictionary with the
keys name, type and description). -/
structure FormattedColumn where
  name : String
  type : String
  description : String
deriving DecidableEq, Inhabited

/-- The per-column reformatting of `_format_columns` (search_engine.py
lines 121-126). -/
def fmtCol (col : ColumnRecord) : FormattedColumn :=
  { name := col.column_name, type := col.data_type, description := col.description }

/-- `DataDictionarySearchEngine._format_columns` (search_engine.py lines
107-135): keep the first 5 columns reformatted; when more than 5 exist,
append one synthetic entry with name `"..."` and type
`"({n-5} more columns)"`. -/
def formatColumns (columns : List ColumnRecord) : List FormattedColumn :=
  let limited_columns := columns.take 5
  let formatted := limited_columns.map fmtCol
  if 5 < columns.length then
    formatted ++
      [{ name := "...",
         type := "(" ++ toString (columns.length - 5) ++ " more columns)",
         description := "" }]
  else
    formatted

/-- Python `round(score, 4)` on the similarity score (search_engine.py
line 71), modelled over the exact rationals. -/
def roundTo4 (x : ℚ) : ℚ := (round (x * 10000) : ℤ) / 10000

/-- `similarities[i]`: the similarity score stored at index `i`. -/
def simKey (sims : List ℚ) (i : ℕ) : ℚ := sims.getD i 0

/-- One step of the stable ascending insertion sort on indices: index `i`
is placed after every already-placed index whose score is `≤` its own. -/
def insertIdx (sims : List ℚ) (i : ℕ) : List ℕ → List ℕ
  | [] => [i]
  | j :: rest =>
    if simKey sims j ≤ simKey sims i then j :: insertIdx sims i rest
    else i :: j :: rest

/-- `np.argsort(similarities)` (search_engine.py line 57): a permutation of
the indices `0, …, len-1` along which the scores are ascending.  The default
numpy kind is introsort, which guarantees only the ascending key order; its
tie order is implementation-defined for arrays beyond the 16-element
insertion-sort threshold, while arrays of at most 16 elements are sorted by
the plain insertion-sort base case, which is stable (equal scores keep
their index order).  Modelled as that insertion sort, inserting the indices
in increasing order: this agrees with numpy exactly on arrays of at most 16
elements and is one admissible ascending permutation on longer arrays.
Accordingly, theorems below assert tie order only under a
`length ≤ 16` hypothesis; the length, permutation and ascending-key facts
they assert hold for every admissible argsort output. -/
def argsortAsc (sims : List ℚ) : List ℕ :=
  (List.range sims.length).foldl (fun acc i => insertIdx sims i acc) []

/-- `np.argsort(similarities)[::-1][:top_k]` (search_engine.py line 57):
reverse the ascending order and keep the first `top_k` indices. -/
def topIndices (sims : List ℚ) (top_k : ℕ) : List ℕ :=
  (argsortAsc sims).reverse.take top_k

/-- One search result dictionary (search_engine.py lines 65-73). -/
structure SearchResult where
  rank : ℕ
  table_id : String
  table_name : String
  table_schema : String
  description : String
  relevance_score : ℚ
  columns : List FormattedColumn
deriving DecidableEq, Inhabited

/-- The result dictionary built for loop position `i` (0-based) and stored
index `idx` (search_engine.py lines 61-73). -/
def mkSearchResult (metadata : List TableRecord) (sims : List ℚ)
    (i idx : ℕ) : SearchResult :=
  let table := metadata.getD idx default
  { rank := i + 1
    table_id := table.table_id
    table_name := table.table_name
    table_schema := table.table_schema
    description := table.description
    relevance_score := roundTo4 (simKey sims idx)
    columns := formatColumns table.columns }

/-- The ranking and result-assembly stage of `search` (search_engine.py
lines 56-77), applied to the computed similarity scores. -/
def searchRanked (sims : List ℚ) (metadata : List TableRecord)
    (top_k : ℕ) : List SearchResult :=
  (topIndices sims top_k).enum.map (fun p => mkSearchResult metadata sims p.1 p.2)

/-- The error raised by `search`:
`ValueError("Index not built. Please build index first.")`
(search_engine.py line 40). -/
inductive SearchError where
  | indexNotBuilt
deriving DecidableEq

/-- `DataDictionarySearchEngine.search` (search_engine.py lines 24-77).
Query encoding and the float cosine-similarity computation are the
territory of the embedding model, so the composite
`simFn embeddings query = _calculate_cosine_similarity(model.encode(query),
embeddings)` is a parameter; the index-built precondition check, the
ranking and the result assembly are concrete. -/
def search (simFn : List Vec → String → List ℚ) (st : IndexerState)
    (query : String) (top_k : ℕ) : Except SearchError (List SearchResult) :=
  match st.embeddings, st.metadata with
  | some embeddings, some metadata =>
    .ok (searchRanked (simFn embeddings query) metadata top_k)
  | _, _ => .error .indexNotBuilt

/-- The squared L2 norm of a vector, exact over the rationals. -/
def normSq (v : Vec) : ℚ := (v.map (fun x => x * x)).sum

/-- `np.linalg.norm(v)` for a finite float vector: the real square root of
the sum of squares. -/
noncomputable def l2norm (v : Vec) : ℝ := Real.sqrt ((normSq v : ℚ) : ℝ)

/-- A float produced by `_calculate_cosine_similarity`: `none` marks a
non-finite value (NaN or ±Inf), `some x` a finite value `x`.  Dividing a
finite float by a zero norm yields a non-finite value (`0/0` is NaN,
`x/0` is ±Inf), which is what `none` records. -/
abbrev FloatVal := Option ℝ

/-- Row-wise normalisation `v / np.linalg.norm(v)` (search_engine.py lines
95-100): every component is divided by the norm; when the norm is zero each
quotient is non-finite (`none`), exactly the NaN/Inf outcome in numpy. -/
noncomputable def normalizeVec (v : Vec) : List FloatVal :=
  v.map (fun x => if normSq v = 0 then none else some ((x : ℝ) / l2norm v))

/-- `np.dot` of one normalised row with the normalised query
(search_engine.py line 103): the sum of componentwise products, non-finite
as soon as an operand is non-finite. -/
def fdot (a b : List FloatVal) : FloatVal :=
  (a.zip b).foldr
    (fun p acc =>
      match p.1, p.2, acc with
      | some x, some y, some s => some (x * y + s)
      | _, _, _ => none)
    (some 0)

/-- `DataDictionarySearchEngine._calculate_cosine_similarity`
(search_engine.py lines 79-105): normalise the query vector and every
stored row to unit L2 norm, then take the dot product of each normalised
row with the normalised query. -/
noncomputable def calculateCosineSimilarity (query_vec : Vec)
    (embeddings : List Vec) : List FloatVal :=
  embeddings.map (fun row => fdot (normalizeVec row) (normalizeVec query_vec))

/-- The strict order in which `argsortAsc` lists indices: ascending score,
with equal scores ordered by ascending original index (stability of the
small-array insertion sort). -/
def idxLt (sims : List ℚ) (a b : ℕ) : Prop :=
  simKey sims a < simKey sims b ∨ (simKey sims a = simKey sims b ∧ a < b)

lemma insertIdx_perm (sims : List ℚ) (i : ℕ) :
    ∀ acc : List ℕ, (insertIdx sims i acc).Perm (i :: acc) := by
  intro acc
  induction acc with
  | nil => simp [insertIdx]
  | cons j rest ih =>
    unfold insertIdx
    split_ifs with h
    · exact ((ih.cons j).trans (List.Perm.swap i j rest))
    · exact List.Perm.refl _

lemma mem_insertIdx (sims : List ℚ) (i k : ℕ) (acc : List ℕ)
    (hk : k ∈ insertIdx sims i acc) : k = i ∨ k ∈ acc := by
  have := (insertIdx_perm sims i acc).mem_iff.mp hk
  simpa using this

lemma insertIdx_pairwise (sims : List ℚ) (i : ℕ) :
    ∀ acc : List ℕ, (∀ j ∈ acc, j < i) → List.Pairwise (idxLt sims) acc →
      List.Pairwise (idxLt sims) (insertIdx sims i acc) := by
  intro acc
  induction acc with
  | nil => intro _ _; simp [insertIdx, List.pairwise_singleton]
  | cons j rest ih =>
    intro hb hp
    unfold insertIdx
    split_ifs with h
    · refine List.Pairwise.cons ?_ (ih (fun k hk => hb k (List.mem_cons_of_mem j hk))
        (List.Pairwise.of_cons hp))
      intro k hk
      rcases mem_insertIdx sims i k rest hk with rfl | hkrest
      · rcases lt_or_eq_of_le h with hlt | heq
        · exact Or.inl hlt
        · exact Or.inr ⟨heq, hb j (List.mem_cons_self j rest)⟩
      · exact (List.pairwise_cons.mp hp).1 k hkrest
    · push_neg at h
      refine List.Pairwise.cons ?_ hp
      intro k hk
      rcases List.mem_cons.mp hk with rfl | hkrest
      · exact Or.inl h
      · left
        have hjk := (List.pairwise_cons.mp hp).1 k hkrest
        rcases hjk with hlt | ⟨heq, _⟩
        · exact h.trans hlt
        · exact heq ▸ h

lemma argsortAsc_spec (sims : List ℚ) :
    (argsortAsc sims).Perm (List.range sims.length) ∧
      List.Pairwise (idxLt sims) (argsortAsc sims) := by
  unfold argsortAsc
  generalize sims.length = n
  induction n with
  | zero => simp
  | succ n ih =>
    rw [List.range_succ, List.foldl_append]
    simp only [List.foldl_cons, List.foldl_nil]
    obtain ⟨ihperm, ihpair⟩ := ih
    have hb : ∀ j ∈ (List.range n).foldl (fun acc i => insertIdx sims i acc) [], j < n := by
      intro j hj
      have := ihperm.mem_iff.mp hj
      simpa using this
    constructor
    · refine ((insertIdx_perm sims n _).trans ?_)
      refine (ihperm.cons n).trans ?_
      exact (List.perm_append_singleton n (List.range n)).symm
    · exact insertIdx_pairwise sims n _ hb ihpair

lemma argsortAsc_length (sims : List ℚ) :
    (argsortAsc sims).length = sims.length := by
  simpa using (argsortAsc_spec sims).1.length_eq

lemma topIndices_length (sims : List ℚ) (top_k : ℕ) :
    (topIndices sims top_k).length = min top_k sims.length := by
  simp [topIndices, List.length_take, argsortAsc_length]

lemma topIndices_pairwise (sims : List ℚ) (top_k : ℕ) :
    List.Pairwise (fun a b => idxLt sims b a) (topIndices sims top_k) := by
  have h := (argsortAsc_spec sims).2
  have hrev : List.Pairwise (flip (idxLt sims)) (argsortAsc sims).reverse :=
    (List.pairwise_reverse).mpr h
  exact (hrev.sublist (List.take_sublist top_k _)).imp (fun hab => hab)

lemma mem_topIndices_lt (sims : List ℚ) (top_k : ℕ) (j : ℕ)
    (hj : j ∈ topIndices sims top_k) : j < sims.length := by
  have hj' : j ∈ (argsortAsc sims).reverse := (List.take_sublist _ _).mem hj
  have hj'' : j ∈ argsortAsc sims := List.mem_reverse.mp hj'
  have := (argsortAsc_spec sims).1.mem_iff.mp hj''
  simpa using this

lemma searchRanked_length (sims : List ℚ) (metadata : List TableRecord)
    (top_k : ℕ) :
    (searchRanked sims metadata top_k).length = min top_k sims.length := by
  simp [searchRanked, List.enum_length, topIndices_length]

lemma searchRanked_get (sims : List ℚ) (metadata : List TableRecord)
    (top_k : ℕ) (i : ℕ) (hi : i < (searchRanked sims metadata top_k).length) :
    (searchRanked sims metadata top_k).get ⟨i, hi⟩ =
      mkSearchResult metadata sims i ((topIndices sims top_k).getD i 0) := by
  have hi' : i < (topIndices sims top_k).length := by
    simpa [searchRanked, List.enum_length] using hi
  simp [searchRanked, List.get_eq_getElem, List.enum_eq_enumFrom,
    List.getD_eq_getElem?_getD, List.getElem?_eq_getElem hi']

end DataCatalog

namespace DataCatalog

/-- Claim C6: For every TableRecord, the derived SearchableText equals the
deterministic construction described by the specification: table name twice,
then the non-sentinel description when present, then the non-empty column
names space-joined after "Columns: ", then the non-empty column descriptions
space-joined, present parts joined by single spaces and absent parts omitted.
Determinism (the same record always yields the byte-identical string) is
immediate because `createSearchableText` is a pure function of the record. -/
theorem C6_searchable_text_matches_spec (table : TableRecord) :
    createSearchableText table = specSearchableText table := by
  unfold createSearchableText specSearchableText
  split_ifs <;> simp [List.append_assoc] <;> split_ifs <;> simp [List.append_assoc]

/-- A fresh indexer as left by `TableIndexer.__init__`: the default model
name, `embeddings = None`, `metadata = None`. -/
def st0 : IndexerState :=
  { model_name := "all-MiniLM-L6-v2", embeddings := none, metadata := none }

/-- A minimal table record used in concrete instances. -/
def sampleTable (nm : String) : TableRecord :=
  { table_id := "project.schema." ++ nm, table_name := nm,
    table_schema := "schema", description := "", columns := [] }

/-- Claim C3: searching while the index is absent/unset (embeddings or
metadata still `None`, as after `__init__` with no successful build or
load) fails with the index-not-built error and never returns an empty
result list. -/
theorem C3_search_unbuilt_index_errors (simFn : List Vec → String → List ℚ)
    (st : IndexerState) (query : String) (top_k : ℕ)
    (h : st.embeddings = none ∨ st.metadata = none) :
    search simFn st query top_k = .error .indexNotBuilt := by
  unfold search
  rcases h with h | h
  · rw [h]
  · rw [h]; cases st.embeddings <;> rfl

/-- Witness for C3 at a fresh indexer: searching right after `__init__`
raises the index-not-built error. -/
theorem C3_search_unbuilt_index_errors_witness :
    search (fun _ _ => []) st0 "test query" 10 = .error .indexNotBuilt :=
  C3_search_unbuilt_index_errors (fun _ _ => []) st0 "test query" 10 (Or.inl rfl)

/-- Counterexample to claim C2 as stated: building from the empty record
list is claimed to make no embedding call and to leave the builder state
unset; in the source, `build_index([])` still issues its one
`model.encode` call (with the empty batch) and assigns `self.embeddings`
and `self.metadata`, so the state does not remain unset. -/
theorem C2_counterexample_empty_build_sets_state :
    ¬ ((build_index (fun _ => []) st0 []).2 = [] ∧
        (build_index (fun _ => []) st0 []).1.embeddings = none ∧
        (build_index (fun _ => []) st0 []).1.metadata = none) := by
  decide

/-- Claim C2 as amended: building from the empty record list still makes
exactly one embedding call, with the empty text batch, and sets
`embeddings` to the encoder output for that batch and `metadata` to the
empty list; a subsequent search therefore does not fail with
index-not-built but silently returns the empty result list (callers
observe a zero-length valid index, not "index unavailable"). -/
theorem C2_amended_empty_build_observable (encode : List String → List Vec)
    (st : IndexerState) (simFn : List Vec → String → List ℚ) (query : String)
    (top_k : ℕ) (hencode : encode [] = [])
    (hsim : simFn [] query = []) :
    (build_index encode st []).2 = [[]] ∧
    (build_index encode st []).1.embeddings = some [] ∧
    (build_index encode st []).1.metadata = some [] ∧
    search simFn (build_index encode st []).1 query top_k = .ok [] := by
  refine ⟨rfl, by simp [build_index, hencode], rfl, ?_⟩
  simp [build_index, hencode, search, hsim, searchRanked, topIndices, argsortAsc]

/-- Witness for the amended C2 at a concrete encoder and similarity
function. -/
theorem C2_amended_empty_build_observable_witness :
    (build_index (fun _ => []) st0 []).2 = [[]] ∧
    (build_index (fun _ => []) st0 []).1.embeddings = some [] ∧
    (build_index (fun _ => []) st0 []).1.metadata = some [] ∧
    search (fun _ _ => []) (build_index (fun _ => []) st0 []).1 "q" 10 = .ok [] :=
  C2_amended_empty_build_observable (fun _ => []) st0 (fun _ _ => []) "q" 10 rfl rfl

/-- Claim C4: loading a cache whose stored model identifier differs from
the current one refuses the cached data — the stored vectors and metadata
are never installed, the call returns `False` — and prints the warning
naming both identifiers; loading a non-existent location returns `False`
with the not-found message rather than raising. -/
theorem C4_load_mismatch_refused_and_missing_not_found (fs : FileSystem)
    (st : IndexerState) (cache_path : String) :
    (∀ emb md mn, fs cache_path = some (.blob emb md mn) →
      mn ≠ st.model_name →
      load_index fs st cache_path =
        (st, false, [.modelMismatchWarning mn st.model_name])) ∧
    (fs cache_path = none →
      load_index fs st cache_path = (st, false, [.cacheNotFound cache_path])) := by
  constructor
  · intro emb md mn hblob hne
    unfold load_index
    rw [hblob]
    simp [hne]
  · intro hnone
    unfold load_index
    rw [hnone]

/-- A file system holding, at the default cache path, a well-formed cache
blob written under a different embedding model. -/
def fsOtherModel : FileSystem := fun p =>
  if p = "data/cache/index.pkl"
  then some (.blob (some [[1, 2]]) (some [sampleTable "users"]) "other-model")
  else none

/-- Witness for C4: a concrete mismatched cache is refused with the warning
naming both identifiers, and a concrete empty file system yields the
not-found result. -/
theorem C4_load_mismatch_refused_and_missing_not_found_witness :
    load_index fsOtherModel st0 "data/cache/index.pkl" =
      (st0, false, [.modelMismatchWarning "other-model" "all-MiniLM-L6-v2"]) ∧
    load_index (fun _ => none) st0 "data/cache/index.pkl" =
      (st0, false, [.cacheNotFound "data/cache/index.pkl"]) :=
  ⟨(C4_load_mismatch_refused_and_missing_not_found fsOtherModel st0
      "data/cache/index.pkl").1 (some [[1, 2]]) (some [sampleTable "users"])
      "other-model" rfl (by decide),
   (C4_load_mismatch_refused_and_missing_not_found (fun _ => none) st0
      "data/cache/index.pkl").2 rfl⟩

/-- Claim C5: for an index whose vectors and metadata are present, saving
to a location and then loading from that location with an indexer carrying
the same model identifier installs vectors and metadata exactly equal to
the original and returns `True`. -/
theorem C5_save_load_round_trip (fs : FileSystem) (st st2 : IndexerState)
    (cache_path : String) (e : List Vec) (m : List TableRecord)
    (he : st.embeddings = some e) (hm : st.metadata = some m)
    (hmodel : st2.model_name = st.model_name) :
    load_index (save_index fs st cache_path) st2 cache_path =
      ({ st2 with embeddings := some e, metadata := some m }, true,
        [.indexLoaded cache_path]) := by
  unfold load_index save_index
  simp [he, hm, hmodel]

/-- Witness for C5: a concrete two-table index round-trips through the
cache bit-for-bit. -/
theorem C5_save_load_round_trip_witness :
    load_index
        (save_index (fun _ => none)
          { model_name := "all-MiniLM-L6-v2",
            embeddings := some [[1, 0], [0, 1]],
            metadata := some [sampleTable "users", sampleTable "orders"] }
          "data/cache/index.pkl")
        st0 "data/cache/index.pkl" =
      ({ st0 with
          embeddings := some [[1, 0], [0, 1]],
          metadata := some [sampleTable "users", sampleTable "orders"] }, true,
        [.indexLoaded "data/cache/index.pkl"]) :=
  C5_save_load_round_trip (fun _ => none)
    { model_name := "all-MiniLM-L6-v2",
      embeddings := some [[1, 0], [0, 1]],
      metadata := some [sampleTable "users", sampleTable "orders"] }
    st0 "data/cache/index.pkl" [[1, 0], [0, 1]]
    [sampleTable "users", sampleTable "orders"] rfl rfl rfl

/-- A file system holding, at the default cache path, bytes on which
`pickle.load` raises. -/
def fsCorrupt : FileSystem := fun p =>
  if p = "data/cache/index.pkl" then some (.corrupt "invalid load key")
  else none

/-- Counterexample to claim C8 as stated: a deserialization fault is
claimed to be reported in a way the caller can distinguish from the
not-found result; in the source both paths return the bare value `False`
with the indexer state untouched, so the value returned to the caller is
identical in the two cases (only the printed text differs). -/
theorem C8_counterexample_caller_cannot_distinguish :
    (load_index fsCorrupt st0 "data/cache/index.pkl").1 =
      (load_index (fun _ => none) st0 "data/cache/index.pkl").1 ∧
    (load_index fsCorrupt st0 "data/cache/index.pkl").2.1 =
      (load_index (fun _ => none) st0 "data/cache/index.pkl").2.1 := by
  decide

/-- Claim C8 as amended: a corrupt cache and a missing cache both return
`False` to the caller with the state unchanged — indistinguishable in the
returned value — and the two cases differ only in the printed message
(the load-error line versus the not-found line). -/
theorem C8_amended_corrupt_distinct_message_only (fs fs' : FileSystem)
    (st : IndexerState) (cache_path err : String)
    (hc : fs cache_path = some (.corrupt err))
    (hn : fs' cache_path = none) :
    load_index fs st cache_path = (st, false, [.loadError err]) ∧
    load_index fs' st cache_path = (st, false, [.cacheNotFound cache_path]) ∧
    (load_index fs st cache_path).2.1 = (load_index fs' st cache_path).2.1 ∧
    (load_index fs st cache_path).2.2 ≠ (load_index fs' st cache_path).2.2 := by
  have h1 : load_index fs st cache_path = (st, false, [.loadError err]) := by
    unfold load_index; rw [hc]
  have h2 : load_index fs' st cache_path = (st, false, [.cacheNotFound cache_path]) := by
    unfold load_index; rw [hn]
  refine ⟨h1, h2, ?_, ?_⟩
  · rw [h1, h2]
  · rw [h1, h2]; simp

/-- Witness for the amended C8 at concrete file systems. -/
theorem C8_amended_corrupt_distinct_message_only_witness :
    load_index fsCorrupt st0 "data/cache/index.pkl" =
      (st0, false, [.loadError "invalid load key"]) ∧
    load_index (fun _ => none) st0 "data/cache/index.pkl" =
      (st0, false, [.cacheNotFound "data/cache/index.pkl"]) ∧
    (load_index fsCorrupt st0 "data/cache/index.pkl").2.1 =
      (load_index (fun _ => none) st0 "data/cache/index.pkl").2.1 ∧
    (load_index fsCorrupt st0 "data/cache/index.pkl").2.2 ≠
      (load_index (fun _ => none) st0 "data/cache/index.pkl").2.2 :=
  C8_amended_corrupt_distinct_message_only fsCorrupt (fun _ => none) st0
    "data/cache/index.pkl" "invalid load key" rfl rfl

/-- Claim C10: whenever `load_index` returns `False` — missing location,
model-identifier mismatch, or deserialization fault — the previously held
in-memory index (embeddings and metadata) is exactly the state from before
the call. -/
theorem C10_failed_load_preserves_state (fs : FileSystem) (st : IndexerState)
    (cache_path : String)
    (h : (load_index fs st cache_path).2.1 = false) :
    (load_index fs st cache_path).1 = st := by
  unfold load_index at h ⊢
  cases hfs : fs cache_path with
  | none => rfl
  | some c =>
    cases c with
    | corrupt err => rfl
    | blob emb md mn =>
      by_cases hm : mn ≠ st.model_name
      · simp [hm]
      · rw [hfs] at h
        simp [hm] at h

/-- Witness for C10 at a concrete failing load (mismatched model). -/
theorem C10_failed_load_preserves_state_witness :
    ((load_index fsOtherModel st0 "data/cache/index.pkl").2.1 = false) ∧
    (load_index fsOtherModel st0 "data/cache/index.pkl").1 = st0 :=
  ⟨by decide,
   C10_failed_load_preserves_state fsOtherModel st0 "data/cache/index.pkl"
     (by decide)⟩

/-- Counterexample to claim C1 as stated: with two records of equal
similarity the claim predicts the first-built record wins the tie, i.e.
result order `["t0", "t1"]`; the source sorts ascending with
`np.argsort` (stable insertion sort at this size, giving `[0, 1]`) and
reverses, so index 1 comes first and the result order is `["t1", "t0"]`:
the last-built record wins the tie. -/
theorem C1_counterexample_tie_order :
    topIndices [0, 0] 2 = [1, 0] ∧
    (searchRanked [0, 0] [sampleTable "t0", sampleTable "t1"] 2).map
        (fun r => r.table_name) = ["t1", "t0"] ∧
    (searchRanked [0, 0] [sampleTable "t0", sampleTable "t1"] 2).map
        (fun r => r.table_name) ≠ ["t0", "t1"] := by
  decide

/-- Claim C1 as amended, changed only as far as the tie counterexample
forces: for every built index and similarity assignment, search returns
`min top_k len` results ordered by non-increasing similarity, result `i`
carrying rank `i + 1` and assembled from the metadata and rounded
similarity of the stored index at position `i`.  The first-built-wins tie
rule of the claim does not hold: in the regime where the tie behaviour of
the default numpy argsort is determinate — indexes of at most 16 records,
its insertion-sort base case, which covers the two-record counterexample —
ties between equal similarities are broken by reverse insertion order, the
last-built record winning; for longer indexes the introsort tie order is
implementation-defined (and in particular not guaranteed to be the
first-built-wins rule either). -/
theorem C1_amended_search_ranking (sims : List ℚ)
    (metadata : List TableRecord) (top_k : ℕ)
    (hlen : sims.length = metadata.length) :
    (searchRanked sims metadata top_k).length = min top_k metadata.length ∧
    List.Pairwise
      (fun a b => simKey sims b ≤ simKey sims a) (topIndices sims top_k) ∧
    (sims.length ≤ 16 →
      List.Pairwise
        (fun a b => simKey sims b < simKey sims a ∨
          (simKey sims b = simKey sims a ∧ b < a)) (topIndices sims top_k)) ∧
    ∀ i (hi : i < (searchRanked sims metadata top_k).length),
      (searchRanked sims metadata top_k).get ⟨i, hi⟩ =
        mkSearchResult metadata sims i ((topIndices sims top_k).getD i 0) ∧
      ((searchRanked sims metadata top_k).get ⟨i, hi⟩).rank = i + 1 := by
  refine ⟨by rw [searchRanked_length, hlen], ?_, ?_, ?_⟩
  · exact (topIndices_pairwise sims top_k).imp
      (fun hab => hab.elim le_of_lt (fun h => le_of_eq h.1))
  · intro _
    exact (topIndices_pairwise sims top_k).imp (fun hab => hab)
  · intro i hi
    refine ⟨searchRanked_get sims metadata top_k i hi, ?_⟩
    rw [searchRanked_get]
    rfl

/-- Witness for the amended C1 at a concrete two-record index with
distinct similarities, also discharging the insertion-sort-regime
hypothesis of the tie clause. -/
theorem C1_amended_search_ranking_witness :
    ([(1 : ℚ), 0].length = [sampleTable "users", sampleTable "orders"].length) ∧
    ([(1 : ℚ), 0].length ≤ 16) ∧
    ((searchRanked [(1 : ℚ), 0] [sampleTable "users", sampleTable "orders"] 5).length =
        min 5 [sampleTable "users", sampleTable "orders"].length ∧
      List.Pairwise
        (fun a b => simKey [(1 : ℚ), 0] b ≤ simKey [(1 : ℚ), 0] a)
        (topIndices [(1 : ℚ), 0] 5) ∧
      ([(1 : ℚ), 0].length ≤ 16 →
        List.Pairwise
          (fun a b => simKey [(1 : ℚ), 0] b < simKey [(1 : ℚ), 0] a ∨
            (simKey [(1 : ℚ), 0] b = simKey [(1 : ℚ), 0] a ∧ b < a))
          (topIndices [(1 : ℚ), 0] 5)) ∧
      ∀ i (hi : i < (searchRanked [(1 : ℚ), 0]
          [sampleTable "users", sampleTable "orders"] 5).length),
        (searchRanked [(1 : ℚ), 0]
            [sampleTable "users", sampleTable "orders"] 5).get ⟨i, hi⟩ =
          mkSearchResult [sampleTable "users", sampleTable "orders"]
            [(1 : ℚ), 0] i ((topIndices [(1 : ℚ), 0] 5).getD i 0) ∧
        ((searchRanked [(1 : ℚ), 0]
            [sampleTable "users", sampleTable "orders"] 5).get ⟨i, hi⟩).rank =
          i + 1) ∧
    List.Pairwise
      (fun a b => simKey [(1 : ℚ), 0] b < simKey [(1 : ℚ), 0] a ∨
        (simKey [(1 : ℚ), 0] b = simKey [(1 : ℚ), 0] a ∧ b < a))
      (topIndices [(1 : ℚ), 0] 5) :=
  ⟨rfl, by decide,
   C1_amended_search_ranking [(1 : ℚ), 0]
     [sampleTable "users", sampleTable "orders"] 5 rfl,
   (C1_amended_search_ranking [(1 : ℚ), 0]
     [sampleTable "users", sampleTable "orders"] 5 rfl).2.2.1 (by decide)⟩

/-- Counterexample to claim C7 as stated: for the stored zero vector the
source computes no fallback similarity — the normalisation divides by a
zero L2 norm and the resulting score is non-finite (`none`), not any
concrete defined value. -/
theorem C7_counterexample_zero_norm_not_defined :
    calculateCosineSimilarity [1] [[0]] = [none] ∧
    ∀ c : ℝ, calculateCosineSimilarity [1] [[0]] ≠ [some c] := by
  have h : calculateCosineSimilarity [1] [[0]] = [none] := by
    norm_num [calculateCosineSimilarity, normalizeVec, fdot, normSq]
  refine ⟨h, fun c hc => ?_⟩
  rw [h] at hc
  simp at hc

/-- Claim C7 as amended: a stored vector of zero L2 norm (and positive
dimension, matching the query dimension) makes its cosine-similarity
score non-finite — the division by the zero norm propagates NaN into the
score instead of any defined fallback. -/
theorem C7_amended_zero_norm_yields_nan (query_vec : Vec)
    (embeddings : List Vec) (i : ℕ) (hi : i < embeddings.length)
    (hrow : normSq (embeddings.getD i []) = 0)
    (hne : embeddings.getD i [] ≠ [])
    (hdim : query_vec.length = (embeddings.getD i []).length) :
    (calculateCosineSimilarity query_vec embeddings).getD i (some 0) = none := by
  have hget : (calculateCosineSimilarity query_vec embeddings).getD i (some 0) =
      fdot (normalizeVec (embeddings.getD i [])) (normalizeVec query_vec) := by
    simp [calculateCosineSimilarity, List.getD_eq_getElem?_getD,
      List.getElem?_map, List.getElem?_eq_getElem hi]
  obtain ⟨x, xs, hx⟩ : ∃ x xs, embeddings.getD i [] = x :: xs := by
    cases h : embeddings.getD i [] with
    | nil => exact absurd h hne
    | cons a l => exact ⟨a, l, rfl⟩
  obtain ⟨y, ys, hy⟩ : ∃ y ys, query_vec = y :: ys := by
    cases hq : query_vec with
    | nil => rw [hq, hx] at hdim; simp at hdim
    | cons a l => exact ⟨a, l, rfl⟩
  have hrow' : normSq (x :: xs) = 0 := hx ▸ hrow
  rw [hget, hx, hy]
  simp [normalizeVec, fdot, hrow']

/-- Witness for the amended C7: one stored one-dimensional zero vector
against a unit query yields a non-finite similarity. -/
theorem C7_amended_zero_norm_yields_nan_witness :
    (0 < ([[(0 : ℚ)]] : List Vec).length) ∧
    (calculateCosineSimilarity [1] [[0]]).getD 0 (some 0) = none :=
  ⟨by decide,
   C7_amended_zero_norm_yields_nan [1] [[0]] 0 (by decide)
     (by simp [normSq]) (by decide) (by decide)⟩

/-- Claim C9: with 5 or fewer columns every column is reformatted and no
synthetic entry is added; with more than 5 columns the output is exactly
the first 5 reformatted columns plus one trailing entry named `"..."`
whose type field states how many columns were omitted. -/
theorem C9_format_columns_truncation (columns : List ColumnRecord) :
    (columns.length ≤ 5 → formatColumns columns = columns.map fmtCol) ∧
    (5 < columns.length →
      formatColumns columns =
        (columns.take 5).map fmtCol ++
          [{ name := "...",
             type := "(" ++ toString (columns.length - 5) ++ " more columns)",
             description := "" }] ∧
      (formatColumns columns).length = 6) := by
  constructor
  · intro h
    unfold formatColumns
    rw [if_neg (by omega), List.take_of_length_le h]
  · intro h
    have heq : formatColumns columns =
        (columns.take 5).map fmtCol ++
          [{ name := "...",
             type := "(" ++ toString (columns.length - 5) ++ " more columns)",
             description := "" }] := by
      unfold formatColumns
      rw [if_pos h]
    refine ⟨heq, ?_⟩
    rw [heq]
    simp [List.length_take]
    omega

/-- Seven sample columns, as in the truncation scenario of the spec. -/
def cols7 : List ColumnRecord :=
  (List.range 7).map
    (fun i => { column_name := "col" ++ toString i, data_type := "STRING",
                description := "" })

/-- Witness for C9 at a record with 7 columns: exactly 6 formatted
entries, the 6th stating "2 more columns". -/
theorem C9_format_columns_truncation_witness :
    (5 < cols7.length) ∧
    (formatColumns cols7 =
        (cols7.take 5).map fmtCol ++
          [{ name := "...",
             type := "(" ++ toString (cols7.length - 5) ++ " more columns)",
             description := "" }] ∧
      (formatColumns cols7).length = 6) :=
  ⟨by decide, (C9_format_columns_truncation cols7).2 (by decide)⟩

end DataCatalog
